import Mathlib

/-!
Shallow embedding of the ManicMinter payment-gated minting gateway
(`src/manicminter/lib.rs`).  The contract is an ink! smart contract; we
model its storage struct, error enumeration, and the three messages
`manic_mint`, `set_price`, `get_price` plus the constructor `new`.

Modelling choices, each tied to the source:
* `Balance` (ink `u128`) is `Nat`; `checked_mul` detects overflow at the
  `u128` boundary `2^128` exactly as Rust's `u128::checked_mul` does.
* `AccountId` is 32 bytes (`AccountId::from([0x0; 32])` in the source);
  we model it as a list of byte values, with `zero_address` the 32-zero
  list, since the contract only ever compares account ids for equality.
* The cross-contract `try_invoke` of `PSP22Mintable::mint` returns
  `Result<MessageResult<()>, ink::env::Error>`; we model its outcome as
  an `Except EnvError (Except LangError Unit)` supplied by the
  environment, and we additionally record the call that was issued (its
  callee and arguments) so that "a credit call was / was not attempted"
  is observable in the model.
* The host environment data read inside a message (`caller`,
  `transferred_value`) are explicit parameters.
-/

namespace ManicMinter

/-- `Balance` in the ink `DefaultEnvironment` is `u128`. -/
abbrev Balance := Nat

/-- The `u128` modulus: `Balance` values live below this bound. -/
def balanceMod : Nat := 2 ^ 128

/-- `u128::checked_mul`: `some (a * b)` when the product is representable,
`none` on overflow. -/
def checked_mul (a b : Balance) : Option Balance :=
  if a * b < balanceMod then some (a * b) else none

/-- An account identifier: 32 bytes in ink.  The contract only compares
account ids for equality, so a list of byte values suffices. -/
structure AccountId where
  bytes : List Nat
deriving DecidableEq, Repr

/-- `fn zero_address() -> AccountId { AccountId::from([0x0; 32]) }` -/
def zero_address : AccountId := ⟨List.replicate 32 0⟩

/-- The contract's error enumeration (`pub enum Error`). -/
inductive Error where
  | BadMintValue
  | ContractNotSet
  | NotOwner
  | Overflow
  | TransactionFailed
deriving DecidableEq, Repr

/-- The contract storage (`#[ink(storage)] pub struct Manicminter`). -/
structure Manicminter where
  owner : AccountId
  token_contract : AccountId
  price : Balance
deriving DecidableEq, Repr

/-- Constructor: `pub fn new(contract_account: AccountId) -> Self`.
The creating caller becomes `owner`, `price` starts at 0. -/
def Manicminter.new (caller : AccountId) (contract_account : AccountId) :
    Manicminter :=
  { owner := caller, token_contract := contract_account, price := 0 }

/-- Dispatch-layer failure of a cross-contract call (`ink::env::Error`),
opaque to the gateway. -/
inductive EnvError where
  | err
deriving DecidableEq, Repr

/-- A failure declared by the callee at the language level (`ink::LangError`),
opaque to the gateway. -/
inductive LangError where
  | err
deriving DecidableEq, Repr

/-- Outcome of `try_invoke`: `Result<MessageResult<()>, ink::env::Error>`
where `MessageResult<()> = Result<(), LangError>`. -/
abbrev InvokeResult := Except EnvError (Except LangError Unit)

/-- Record of a cross-contract credit call issued by the gateway:
callee contract plus the `(recipient, amount)` arguments pushed for
`PSP22Mintable::mint`. -/
structure CreditCall where
  callee : AccountId
  recipient : AccountId
  amount : Balance
deriving DecidableEq, Repr

/-- What one message invocation produces: the contract's returned
`Result`, the post-state, and the credit call issued, if any. -/
structure MintOutcome where
  result : Except Error Unit
  state : Manicminter
  call : Option CreditCall
deriving Repr

/-- `fn manic_mint(&mut self, amount: Balance) -> Result<()>`.

`caller` and `transferred_value` are the host environment reads
`self.env().caller()` and `self.env().transferred_value()`; `invoke` is
the outcome the environment gives the `try_invoke` of the credit call.

Mirrors the source line by line:
1. `ensure!(self.token_contract != zero_address(), Error::ContractNotSet)`
2. `match self.price.checked_mul(amount)`: on `Some(value)`,
   `ensure!(transferred_value >= value, Error::TransactionFailed)`;
   on `None`, `return Err(Error::Overflow)`
3. build and `try_invoke` the `PSP22Mintable::mint` call with
   arguments `(caller, amount)`
4. `Ok(Ok(_)) => Ok(())`, anything else `=> Err(Error::TransactionFailed)`. -/
def manic_mint (self : Manicminter) (caller : AccountId)
    (transferred_value : Balance) (amount : Balance)
    (invoke : InvokeResult) : MintOutcome :=
  if self.token_contract = zero_address then
    { result := .error .ContractNotSet, state := self, call := none }
  else
    match checked_mul self.price amount with
    | some value =>
        if transferred_value ≥ value then
          let issued : CreditCall :=
            { callee := self.token_contract, recipient := caller
              amount := amount }
          match invoke with
          | .ok (.ok _) =>
              { result := .ok (), state := self, call := some issued }
          | _ =>
              { result := .error .TransactionFailed, state := self
                call := some issued }
        else
          { result := .error .TransactionFailed, state := self, call := none }
    | none =>
        { result := .error .Overflow, state := self, call := none }

/-- `fn set_price(&mut self, new_price: Balance) -> Result<()>`:
`ensure!(self.env().caller() == self.owner, Error::NotOwner)` then
`self.price = new_price`. -/
def set_price (self : Manicminter) (caller : AccountId)
    (new_price : Balance) : Except Error Unit × Manicminter :=
  if caller = self.owner then
    (.ok (), { self with price := new_price })
  else
    (.error .NotOwner, self)

/-- `fn get_price(&self) -> Balance { self.price }` -/
def get_price (self : Manicminter) : Balance :=
  self.price

instance {ε α : Type} [DecidableEq ε] [DecidableEq α] :
    DecidableEq (Except ε α) := fun a b =>
  match a, b with
  | .ok x, .ok y =>
      if h : x = y then .isTrue (by rw [h])
      else .isFalse (by intro hc; injection hc; contradiction)
  | .ok _, .error _ => .isFalse (by intro hc; injection hc)
  | .error _, .ok _ => .isFalse (by intro hc; injection hc)
  | .error x, .error y =>
      if h : x = y then .isTrue (by rw [h])
      else .isFalse (by intro hc; injection hc; contradiction)

/-- A sample non-zero account used as owner in concrete instantiations. -/
def acctA : AccountId := ⟨List.replicate 32 1⟩

/-- A sample non-zero account used as a non-owner caller. -/
def acctB : AccountId := ⟨List.replicate 32 2⟩

/-- A sample non-zero account used as the ledger (token contract). -/
def acctT : AccountId := ⟨List.replicate 32 3⟩

/-- A sample configured gateway state: owner `acctA`, ledger `acctT`,
unit price 100. -/
def stSample : Manicminter := ⟨acctA, acctT, 100⟩

/-- A gateway state whose ledger reference is the null identifier and
whose unit price is large enough that `price * 4` overflows `u128`. -/
def stUnset : Manicminter := ⟨acctA, zero_address, 2 ^ 127⟩

/-- A configured gateway state with an overflow-prone price. -/
def stBigPrice : Manicminter := ⟨acctA, acctT, 2 ^ 127⟩

/-- The invocation outcome "dispatched without error, ledger declared
success". -/
def invokeOk : InvokeResult := .ok (.ok ())

end ManicMinter

namespace ManicMinter

/-- Every branch of `manic_mint` returns the storage unchanged. -/
theorem manic_mint_state_eq (st : Manicminter) (caller : AccountId)
    (tv amount : Balance) (invoke : InvokeResult) :
    (manic_mint st caller tv amount invoke).state = st := by
  unfold manic_mint
  split
  · rfl
  · split
    · split
      · split <;> rfl
      · rfl
    · rfl

/-- C1 (counterexample): the claim quantifies over *every* gateway state,
but when the ledger reference is the null identifier the `ContractNotSet`
check fires first, so an overflowing `unit_price * amount` does not yield
`Overflow`.  Concretely: state with null ledger and `price = 2^127`,
`amount = 4` (so checked multiplication overflows), a huge payment, and a
succeeding ledger — Mint returns `ContractNotSet`, not `Overflow`. -/
theorem manic_mint_overflow_cex :
    checked_mul stUnset.price 4 = none
    ∧ (manic_mint stUnset acctB (2 ^ 127) 4 invokeOk).result
        = Except.error Error.ContractNotSet
    ∧ (manic_mint stUnset acctB (2 ^ 127) 4 invokeOk).result
        ≠ Except.error Error.Overflow := by
  refine ⟨by decide, rfl, by decide⟩

/-- C1 (amended): for every gateway state whose ledger reference is not
the null identifier, if `unit_price * amount` overflows `u128` (checked
multiplication returns `none`), Mint fails with `Overflow` regardless of
attached payment size and of the would-be ledger outcome; in particular
the overflow check precedes any payment-sufficiency check. -/
theorem manic_mint_overflow (st : Manicminter) (caller : AccountId)
    (tv amount : Balance) (invoke : InvokeResult)
    (hset : st.token_contract ≠ zero_address)
    (hover : checked_mul st.price amount = none) :
    (manic_mint st caller tv amount invoke).result
      = Except.error Error.Overflow := by
  unfold manic_mint
  rw [if_neg hset, hover]

/-- C1 (witness): the amended overflow theorem at a concrete input:
configured ledger, price `2^127`, amount 4, an enormous payment, a
succeeding ledger — still `Overflow`. -/
theorem manic_mint_overflow_wit :
    (manic_mint stBigPrice acctB (2 ^ 127) 4 invokeOk).result
      = Except.error Error.Overflow :=
  manic_mint_overflow stBigPrice acctB (2 ^ 127) 4 invokeOk
    (by decide) (by decide)

/-- C2: with a non-null ledger reference, when `unit_price * amount` does
not overflow and the attached payment is strictly below the required
total, Mint fails with `TransactionFailed` and no credit call is
issued. -/
theorem manic_mint_insufficient_payment (st : Manicminter)
    (caller : AccountId) (tv amount : Balance) (invoke : InvokeResult)
    (hset : st.token_contract ≠ zero_address)
    (hfits : st.price * amount < balanceMod)
    (hlt : tv < st.price * amount) :
    (manic_mint st caller tv amount invoke).result
      = Except.error Error.TransactionFailed
    ∧ (manic_mint st caller tv amount invoke).call = none := by
  have hc : checked_mul st.price amount = some (st.price * amount) := by
    simp [checked_mul, hfits]
  unfold manic_mint
  rw [if_neg hset, hc]
  simp only [ge_iff_le]
  rw [if_neg (Nat.not_le.mpr hlt)]
  exact ⟨rfl, rfl⟩

/-- C2 (witness): price 100, amount 3, payment 250 < 300 on a configured
gateway: `TransactionFailed` and no credit call. -/
theorem manic_mint_insufficient_payment_wit :
    (manic_mint stSample acctB 250 3 invokeOk).result
      = Except.error Error.TransactionFailed
    ∧ (manic_mint stSample acctB 250 3 invokeOk).call = none :=
  manic_mint_insufficient_payment stSample acctB 250 3 invokeOk
    (by decide) (by decide) (by decide)

/-- C3: when the ledger reference equals the null identifier, Mint fails
with `ContractNotSet` for every amount, payment, caller and would-be
ledger outcome, and no credit call is issued; since the conclusion holds
even for overflowing products and insufficient payments, this check wins
over the overflow and payment checks. -/
theorem manic_mint_contract_not_set (st : Manicminter) (caller : AccountId)
    (tv amount : Balance) (invoke : InvokeResult)
    (hzero : st.token_contract = zero_address) :
    (manic_mint st caller tv amount invoke).result
      = Except.error Error.ContractNotSet
    ∧ (manic_mint st caller tv amount invoke).call = none := by
  unfold manic_mint
  rw [if_pos hzero]
  exact ⟨rfl, rfl⟩

/-- C3 (witness): null-ledger state with an overflowing price/amount pair
and zero payment still reports `ContractNotSet`. -/
theorem manic_mint_contract_not_set_wit :
    (manic_mint stUnset acctB 0 4 invokeOk).result
      = Except.error Error.ContractNotSet
    ∧ (manic_mint stUnset acctB 0 4 invokeOk).call = none :=
  manic_mint_contract_not_set stUnset acctB 0 4 invokeOk (by decide)

/-- C4: when all three validation checks pass (ledger set, product fits
in `u128`, payment at least the required total), the gateway issues the
credit call with arguments `(caller, amount)` to the stored ledger; Mint
succeeds exactly when the invocation both dispatches without error and
the ledger declares success, and every other invocation outcome yields
`TransactionFailed`. -/
theorem manic_mint_credit_call (st : Manicminter) (caller : AccountId)
    (tv amount : Balance) (invoke : InvokeResult)
    (hset : st.token_contract ≠ zero_address)
    (hfits : st.price * amount < balanceMod)
    (hge : tv ≥ st.price * amount) :
    (manic_mint st caller tv amount invoke).call
      = some ⟨st.token_contract, caller, amount⟩
    ∧ ((manic_mint st caller tv amount invoke).result = .ok ()
        ↔ invoke = invokeOk)
    ∧ (invoke ≠ invokeOk →
        (manic_mint st caller tv amount invoke).result
          = Except.error Error.TransactionFailed) := by
  have hc : checked_mul st.price amount = some (st.price * amount) := by
    simp [checked_mul, hfits]
  unfold manic_mint
  rw [if_neg hset, hc]
  simp only [ge_iff_le]
  rw [if_pos hge]
  rcases invoke with e | me
  · simp [invokeOk]
  · rcases me with l | u
    · simp [invokeOk]
    · simp [invokeOk]

/-- C4 (witness): Scenario A style input — price 100, amount 3, payment
300, ledger succeeds: the credit call carries `(caller, 3)` and Mint
returns success. -/
theorem manic_mint_credit_call_wit :
    (manic_mint stSample acctB 300 3 invokeOk).call
      = some ⟨stSample.token_contract, acctB, 3⟩
    ∧ ((manic_mint stSample acctB 300 3 invokeOk).result = .ok ()
        ↔ invokeOk = invokeOk)
    ∧ (invokeOk ≠ invokeOk →
        (manic_mint stSample acctB 300 3 invokeOk).result
          = Except.error Error.TransactionFailed) :=
  manic_mint_credit_call stSample acctB 300 3 invokeOk
    (by decide) (by decide) (by decide)

/-- C5: SetPrice succeeds iff the caller is the recorded owner; a
non-owner gets `NotOwner` with the state (hence `unit_price`) unchanged,
while the owner replaces `unit_price` with the new value
unconditionally — any `Balance`, including zero. -/
theorem set_price_owner_gate (st : Manicminter) (c : AccountId)
    (p : Balance) :
    ((set_price st c p).1 = .ok () ↔ c = st.owner)
    ∧ (c ≠ st.owner →
        (set_price st c p).1 = Except.error Error.NotOwner
        ∧ (set_price st c p).2 = st)
    ∧ (c = st.owner →
        (set_price st c p).1 = .ok ()
        ∧ (set_price st c p).2.price = p) := by
  by_cases h : c = st.owner <;> simp [set_price, h]

/-- C5 (witness): a non-owner setting price 500 on the sample gateway is
rejected with `NotOwner` and the state is untouched. -/
theorem set_price_owner_gate_wit :
    (set_price stSample acctB 500).1 = Except.error Error.NotOwner
    ∧ (set_price stSample acctB 500).2 = stSample :=
  (set_price_owner_gate stSample acctB 500).2.1 (by decide)

/-- C6: frame conditions — every `manic_mint` invocation, whatever its
outcome, returns the three storage fields unchanged; `set_price` never
touches `owner` or `token_contract`; and `price` after `set_price` is
either the old price or the new one with the call having succeeded, so
`unit_price` changes only through a successful SetPrice. -/
theorem gateway_frame (st : Manicminter) (caller : AccountId)
    (tv amount : Balance) (invoke : InvokeResult) (c : AccountId)
    (p : Balance) :
    (manic_mint st caller tv amount invoke).state = st
    ∧ (set_price st c p).2.owner = st.owner
    ∧ (set_price st c p).2.token_contract = st.token_contract
    ∧ ((set_price st c p).2.price = st.price
        ∨ ((set_price st c p).1 = .ok ()
            ∧ (set_price st c p).2.price = p)) := by
  refine ⟨manic_mint_state_eq st caller tv amount invoke, ?_, ?_, ?_⟩ <;>
    by_cases h : c = st.owner <;> simp [set_price, h]

/-- C7: the declared error kind `BadMintValue` is unreachable — no
execution of `manic_mint` or `set_price` ever returns it, for any state
and inputs (`get_price` returns a bare `Balance` and cannot return an
error at all, by its type). -/
theorem bad_mint_value_unreachable (st : Manicminter) (caller : AccountId)
    (tv amount : Balance) (invoke : InvokeResult) (c : AccountId)
    (p : Balance) :
    (manic_mint st caller tv amount invoke).result
      ≠ Except.error Error.BadMintValue
    ∧ (set_price st c p).1 ≠ Except.error Error.BadMintValue := by
  constructor
  · unfold manic_mint
    split
    · simp
    · split
      · split
        · split <;> simp
        · simp
      · simp
  · unfold set_price
    split <;> simp

/-- C8: the constructor `new(contract_account)` makes the creating caller
the owner, stores the supplied identifier as the ledger reference, and
initializes the unit price to 0. -/
theorem constructor_initializes (caller contract_account : AccountId) :
    (Manicminter.new caller contract_account).owner = caller
    ∧ (Manicminter.new caller contract_account).token_contract
        = contract_account
    ∧ (Manicminter.new caller contract_account).price = 0 :=
  ⟨rfl, rfl, rfl⟩

/-- C9: GetPrice is a pure read — by its type it takes the state and
returns a `Balance` without modifying anything, so repeated calls on an
unchanged state trivially agree.  It returns the stored `unit_price`,
which is 0 straight after construction, and immediately after a
SetPrice it returns the new value when the caller was the owner and the
prior value otherwise. -/
theorem get_price_pure_read (st : Manicminter) (c a : AccountId)
    (p : Balance) :
    get_price st = st.price
    ∧ get_price (Manicminter.new c a) = 0
    ∧ get_price (set_price st c p).2
        = (if c = st.owner then p else st.price) := by
  refine ⟨rfl, rfl, ?_⟩
  by_cases h : c = st.owner <;> simp [set_price, get_price, h]

/-- C10: Mint performs no positivity check on the amount — with a
non-null ledger reference and `amount = 0`, the required payment
computes to 0 (checked multiplication never overflows on 0), the
payment check passes for every attached payment and every unit price,
and the credit call is issued with amount 0; the overall result then
depends only on the invocation outcome. -/
theorem manic_mint_zero_amount (st : Manicminter) (caller : AccountId)
    (tv : Balance) (invoke : InvokeResult)
    (hset : st.token_contract ≠ zero_address) :
    checked_mul st.price 0 = some 0
    ∧ (manic_mint st caller tv 0 invoke).call
        = some ⟨st.token_contract, caller, 0⟩
    ∧ ((manic_mint st caller tv 0 invoke).result = .ok ()
        ↔ invoke = invokeOk) := by
  have hc : checked_mul st.price 0 = some 0 := by
    simp [checked_mul, balanceMod]
  refine ⟨hc, ?_⟩
  unfold manic_mint
  rw [if_neg hset, hc]
  simp only [ge_iff_le]
  rw [if_pos (Nat.zero_le tv)]
  rcases invoke with e | me
  · simp [invokeOk]
  · rcases me with l | u
    · simp [invokeOk]
    · simp [invokeOk]

/-- C10 (witness): the sample gateway with amount 0 and payment 0 —
the credit call is issued with amount 0 and a succeeding ledger makes
Mint succeed. -/
theorem manic_mint_zero_amount_wit :
    checked_mul stSample.price 0 = some 0
    ∧ (manic_mint stSample acctB 0 0 invokeOk).call
        = some ⟨stSample.token_contract, acctB, 0⟩
    ∧ ((manic_mint stSample acctB 0 0 invokeOk).result = .ok ()
        ↔ invokeOk = invokeOk) :=
  manic_mint_zero_amount stSample acctB 0 invokeOk (by decide)

end ManicMinter
